import Mathlib

/-!
Shallow embedding of `examples/speed-benchmark/speed_benchmark_transformer.py`.

The script is a single class `SpeedBenchmarkTransformer` with class constants,
an `__init__` that imports optional dependencies and loads a model, a `run`
method that builds a synthetic prompt, times one generation pass, assembles a
one-row result record and writes it to a timestamped CSV file, and an argparse
entry point `main`.

Modelling conventions:
* Python floats (wall-clock seconds, tokens per second, memory in GB) are
  idealised as exact rationals `ℚ`; `round(x, 4)` is modelled as round half to
  even on `x * 10000`, matching Python's rounding mode.
* Token counts, shapes and byte counts are `ℕ` (they are sizes in the source).
* External effects visible to the script are an `Env` record: the tokenizer's
  output shape, the generated sequence length from `model.generate`, the wall
  clock, the per-device `max_memory_allocated` counters, and the `strftime`
  timestamp.
* The file system is a list of existing directories and written files;
  `os.makedirs(..., exist_ok=True)` inserts a directory and its ancestors and
  leaves existing ones alone; writing to a file whose directory does not exist
  fails, as in POSIX.
* Python `assert` statements and uncaught exceptions are `Except.error`.
-/

namespace SpeedBenchmarkTransformer

/-- Class constant `SEED = 1024`. -/
def SEED : Nat := 1024

/-- Class constant `BATCH_SIZE = 1`. -/
def BATCH_SIZE : Nat := 1

/-- Class constant `USE_FLASH_ATTN = True`. -/
def USE_FLASH_ATTN : Bool := true

/-- Class constant `COMMENT = 'default'`. -/
def COMMENT : String := "default"

/-- Class constant `GENERATE_LENGTH_PER_EXPERIMENT = 2048`. -/
def GENERATE_LENGTH_PER_EXPERIMENT : Nat := 2048

/-- Class constant `DUMMY_INPUT`, the single CJK character used to build the
synthetic prompt. -/
def DUMMY_INPUT : String := "我"

/-- Python string repetition `s * n`. -/
def pyStrMul (s : String) (n : Nat) : String :=
  String.join (List.replicate n s)

/-- Round half to even of a rational to an integer (Python `round(x)`). -/
def roundHalfEven (q : ℚ) : ℤ :=
  let f : ℤ := Int.floor q
  let r : ℚ := q - (f : ℚ)
  if r < 1/2 then f
  else if 1/2 < r then f + 1
  else if f % 2 = 0 then f else f + 1

/-- Python `round(x, 4)`, idealised over `ℚ`. -/
def pyRound4 (q : ℚ) : ℚ := ((roundHalfEven (q * 10000) : ℤ) : ℚ) / 10000

/-- The decimal digit `d` as a character (for `0 ≤ d ≤ 9`). -/
def digitCh (d : Nat) : Char := Char.ofNat (48 + d)

/-- Whether `c` is an ASCII decimal digit. -/
def isDigitCh (c : Char) : Bool := 48 ≤ c.toNat && c.toNat ≤ 57

/-- Decimal rendering of a natural number, modelling Python `str(n)`. -/
def toDecChars (n : Nat) : List Char :=
  if n = 0 then [Char.ofNat 48]
  else ((Nat.digits 10 n).map digitCh).reverse

/-- Value of a digit string read most-significant first. -/
def decVal (l : List Char) : Nat :=
  l.foldl (fun a c => 10 * a + (c.toNat - 48)) 0

/-- Parse a nonempty all-digit string as a natural number. -/
def parseDecChars (l : List Char) : Option Nat :=
  if l ≠ [] ∧ l.all isDigitCh then some (decVal l) else none

/-- Zero-pad the decimal rendering of `m` to four digits. -/
def pad4 (m : Nat) : List Char :=
  List.replicate (4 - (toDecChars m).length) (Char.ofNat 48) ++ toDecChars m

/-- Render a nonnegative rational with denominator dividing 10000 (the output
of `pyRound4`) as a fixed-point decimal with four fractional digits. -/
def renderDec4 (q : ℚ) : List Char :=
  let n : Nat := (q * 10000).num.toNat
  toDecChars (n / 10000) ++ Char.ofNat 46 :: pad4 (n % 10000)

/-- Split a character list at a separator: first field and remaining fields. -/
def splitSep1 (sep : Char) : List Char → List Char × List (List Char)
  | [] => ([], [])
  | c :: cs =>
    let r := splitSep1 sep cs
    if c = sep then ([], r.1 :: r.2) else (c :: r.1, r.2)

/-- Split a character list at every occurrence of `sep`; always nonempty. -/
def splitSep (sep : Char) (l : List Char) : List (List Char) :=
  (splitSep1 sep l).1 :: (splitSep1 sep l).2

/-- Join fields with a separator character. -/
def joinSep (sep : Char) : List (List Char) → List Char
  | [] => []
  | [f] => f
  | f :: g :: fs => f ++ sep :: joinSep sep (g :: fs)

/-- Parse a fixed-point decimal with four fractional digits. -/
def parseDec4 (l : List Char) : Option ℚ :=
  match splitSep (Char.ofNat 46) l with
  | [a, b] =>
    if b.length = 4 then
      match parseDecChars a, parseDecChars b with
      | some x, some y => some (((x * 10000 + y : Nat) : ℚ) / 10000)
      | _, _ => none
    else none
  | _ => none

/-- A value of the result dict: Python str, int, bool or float. -/
inductive CsvValue where
  | S (s : String)
  | I (n : Nat)
  | B (b : Bool)
  | Q (q : ℚ)
deriving DecidableEq

/-- The one-row result record assembled by `run` (lines 106-115 of the
source), with Python floats idealised as rationals. -/
structure ResultData where
  model_id : String
  batch_size : Nat
  context_length_per_experiment : Nat
  generate_length_per_experiment : Nat
  use_flash_attn : Bool
  comment : String
  tokens_per_second : ℚ
  max_gpu_memory_cost_gb : ℚ
deriving DecidableEq

/-- The `data` dict of `run` as an ordered key-value list, in source order. -/
def recordFields (d : ResultData) : List (String × CsvValue) :=
  [("model_id", CsvValue.S d.model_id),
   ("batch_size", CsvValue.I d.batch_size),
   ("context_length_per_experiment", CsvValue.I d.context_length_per_experiment),
   ("generate_length_per_experiment", CsvValue.I d.generate_length_per_experiment),
   ("use_flash_attn", CsvValue.B d.use_flash_attn),
   ("comment", CsvValue.S d.comment),
   ("tokens_per_second", CsvValue.Q d.tokens_per_second),
   ("max_gpu_memory_cost_gb", CsvValue.Q d.max_gpu_memory_cost_gb)]

/-- Modelled from the spec: rendering of one CSV cell. `pandas.DataFrame.to_csv`
is outside this repository; a string cell free of delimiter, quote and newline
is written verbatim, an int as its decimal digits, a bool as `True`/`False`,
and a (rounded) float as a fixed-point decimal. -/
def renderValue : CsvValue → List Char
  | CsvValue.S s => s.data
  | CsvValue.I n => toDecChars n
  | CsvValue.B b => if b then "True".data else "False".data
  | CsvValue.Q q => renderDec4 q

/-- The header cells of the CSV file, i.e. the keys of the result dict. -/
def csvHeaderFields : List (List Char) :=
  ["model_id".data, "batch_size".data, "context_length_per_experiment".data,
   "generate_length_per_experiment".data, "use_flash_attn".data,
   "comment".data, "tokens_per_second".data, "max_gpu_memory_cost_gb".data]

/-- Modelled from the spec: the text `to_csv(out_file, index=False)` writes,
a header line and one value line, each terminated by a newline. -/
def renderCsv (d : ResultData) : List Char :=
  joinSep (Char.ofNat 10)
    [joinSep (Char.ofNat 44) csvHeaderFields,
     joinSep (Char.ofNat 44) ((recordFields d).map (fun kv => renderValue kv.2)),
     []]

/-- Modelled from the spec: parse a `True`/`False` CSV cell. -/
def parseBool (l : List Char) : Option Bool :=
  if l = "True".data then some true
  else if l = "False".data then some false else none

/-- Modelled from the spec: parse the value line of the CSV back into a
result record, reading each cell at the type the writer used. -/
def parseRow : List (List Char) → Option ResultData
  | [a, b, c, d, e, f, g, h] =>
    match parseDecChars b, parseDecChars c, parseDecChars d,
          parseBool e, parseDec4 g, parseDec4 h with
    | some bs, some cl, some gl, some fl, some tps, some mem =>
      some { model_id := String.mk a,
             batch_size := bs,
             context_length_per_experiment := cl,
             generate_length_per_experiment := gl,
             use_flash_attn := fl,
             comment := String.mk f,
             tokens_per_second := tps,
             max_gpu_memory_cost_gb := mem }
    | _, _, _, _, _, _ => none
  | _ => none

/-- Modelled from the spec: read the delimited file back — split into lines,
check the header, and parse the single value row. -/
def parseCsv (content : List Char) : Option ResultData :=
  match splitSep (Char.ofNat 10) content with
  | [h, r, t] =>
    if h = joinSep (Char.ofNat 44) csvHeaderFields ∧ t = [] then
      parseRow (splitSep (Char.ofNat 44) r)
    else none
  | _ => none

/-- Python `model_id.replace('/', '__')` (the pattern is a single character,
so replacement is independent per character). -/
def replaceSlash (s : String) : String :=
  String.mk (s.data.flatMap (fun c => if c = Char.ofNat 47 then
    [Char.ofNat 95, Char.ofNat 95] else [c]))

/-- `os.path.join` for a non-absolute right operand (POSIX rules). -/
def pathJoin (a b : String) : String :=
  if b.data.head? = some (Char.ofNat 47) then b
  else if a = "" ∨ a.data.getLast? = some (Char.ofNat 47) then a ++ b
  else a ++ String.mk [Char.ofNat 47] ++ b

/-- `os.path.dirname` on the reversed character list: drop everything after
the last slash, then strip trailing slashes unless the result is all
slashes. -/
def dirnameL (p : List Char) : List Char :=
  let after := p.reverse.dropWhile (fun c => c ≠ Char.ofNat 47)
  if after = [] then []
  else if after.reverse.all (fun c => c = Char.ofNat 47) then after.reverse
  else (after.dropWhile (fun c => c = Char.ofNat 47)).reverse

/-- `os.path.dirname`. -/
def dirname (p : String) : String := String.mk (dirnameL p.data)

/-- The directory and the chain of its ancestors created by
`os.makedirs` (fuel-bounded iteration of `dirname`). -/
def ancestorsFuel : Nat → String → List String
  | 0, p => [p]
  | k + 1, p =>
    let d := dirname p
    if d = p ∨ d = "" then [p] else p :: ancestorsFuel k d

/-- The directory itself and all its ancestors. -/
def ancestorChain (p : String) : List String :=
  ancestorsFuel p.data.length p

/-- The file system visible to the script: existing directories and the
files written so far with their contents. -/
structure FileSystem where
  dirs : List String
  files : List (String × List Char)
deriving DecidableEq

/-- `os.makedirs(p, exist_ok=True)`: create `p` and any missing ancestors;
directories that already exist are left alone. -/
def makedirs (fs : FileSystem) (p : String) : FileSystem :=
  { fs with dirs := fs.dirs ++ (ancestorChain p).filter (fun d => decide (d ∉ fs.dirs)) }

/-- `save_result(data, out_file)`: render the one-row DataFrame to CSV and
write it; writing into a missing directory is a `FileNotFoundError`. -/
def save_result (fs : FileSystem) (data : ResultData) (out_file : String) :
    Except String FileSystem :=
  if dirname out_file ∈ fs.dirs ∨ dirname out_file = "" then
    Except.ok { fs with files := fs.files ++ [(out_file, renderCsv data)] }
  else Except.error "FileNotFoundError"

/-- The external world `run` observes: tokenizer output shape, generated
sequence length, wall clock, per-device peak memory counters, timestamp. -/
structure Env where
  tokShape : List String → Nat × Nat
  genSeqLen : Nat
  timeCost : ℚ
  memAllocated : List Nat
  timestamp : String

/-- The constructor arguments that configure a benchmark instance. -/
structure Config where
  model_id : String
  outputs_dir : String

/-- The result record `run` assembles when both shape assertions pass. -/
def mkResultData (cfg : Config) (env : Env) (context_length : Nat) : ResultData :=
  let time_cost := env.timeCost
  let m : Nat := env.memAllocated.foldl (fun a b => a + b) 0
  let max_gpu_memory_cost : Nat := max 0 m
  { model_id := cfg.model_id,
    batch_size := BATCH_SIZE,
    context_length_per_experiment := context_length,
    generate_length_per_experiment := GENERATE_LENGTH_PER_EXPERIMENT,
    use_flash_attn := USE_FLASH_ATTN,
    comment := COMMENT,
    tokens_per_second := pyRound4 ((GENERATE_LENGTH_PER_EXPERIMENT : ℚ) / time_cost),
    max_gpu_memory_cost_gb := pyRound4 ((max_gpu_memory_cost : ℚ) / 1024 / 1024 / 1024) }

/-- The output path `run` builds: `outputs_dir` joined with
`{model_id with slashes replaced}_context_length-{L}_{timestamp}.csv`. -/
def mkOutFile (cfg : Config) (env : Env) (context_length : Nat) : String :=
  pathJoin cfg.outputs_dir
    (replaceSlash cfg.model_id ++ "_context_length-" ++
      String.mk (toDecChars context_length) ++ "_" ++ env.timestamp ++ ".csv")

/-- `SpeedBenchmarkTransformer.run(context_length)`: set `min_length` to
`GENERATE_LENGTH_PER_EXPERIMENT + context_length`, tokenize the synthetic
prompt, check both input-shape assertions, generate and check the output
length, read the memory counters, assemble the record, create the output
directory and write the CSV file, returning its path. -/
def run (cfg : Config) (env : Env) (fs : FileSystem) (context_length : Nat) :
    Except String (FileSystem × ResultData × String) :=
  let min_length := GENERATE_LENGTH_PER_EXPERIMENT + context_length
  let context_str := pyStrMul DUMMY_INPUT context_length
  let shape := env.tokShape (List.replicate BATCH_SIZE context_str)
  if shape.2 ≠ context_length then Except.error "AssertionError: input shape 1"
  else if shape.1 ≠ BATCH_SIZE then Except.error "AssertionError: input shape 0"
  else if env.genSeqLen ≠ min_length then Except.error "AssertionError: pred shape 1"
  else
    let data := mkResultData cfg env context_length
    let out_file := mkOutFile cfg env context_length
    let out_dir := dirname out_file
    let fs1 := makedirs fs out_dir
    match save_result fs1 data out_file with
    | Except.error e => Except.error e
    | Except.ok fs2 => Except.ok (fs2, data, out_file)

/-- `SpeedBenchmarkTransformer.__init__`, reduced to its dependency checks:
with `use_modelscope` the module `modelscope` must be installed, otherwise
`huggingface_hub`; a missing module raises `ImportError` before any state is
built. -/
def initDeps (use_modelscope : Bool) (installed : String → Bool) :
    Except String Unit :=
  if use_modelscope then
    if ¬ installed "modelscope" then
      Except.error "ImportError: Please install modelscope"
    else Except.ok ()
  else
    if ¬ installed "huggingface_hub" then
      Except.error "ImportError: Please install huggingface-hub"
    else Except.ok ()

/-- One argparse argument: its flag and its default value, if any. -/
structure ArgDef where
  flag : String
  defaultVal : Option String
deriving DecidableEq

/-- The argparse surface of `main` (lines 145-150 of the source). -/
def cliArgs : List ArgDef :=
  [{ flag := "--model_id", defaultVal := none },
   { flag := "--context_length", defaultVal := none },
   { flag := "--gpus", defaultVal := none },
   { flag := "--use_modelscope", defaultVal := none },
   { flag := "--outputs_dir", defaultVal := some "outputs/transformer" }]

/-- The parsed attributes `main` reads from `args` (lines 154-158). -/
def mainConsumed : List String :=
  ["model_id", "gpus", "context_length", "use_modelscope", "outputs_dir"]

/-- Substring containment on the underlying character lists. -/
def containsSub (s sub : String) : Prop :=
  ∃ a b, s.data = a ++ sub.data ++ b

/-! ### Decimal rendering lemmas -/

lemma digitCh_toNat : ∀ d : Nat, d < 10 → (digitCh d).toNat = 48 + d := by decide

lemma isDigitCh_digitCh : ∀ d : Nat, d < 10 → isDigitCh (digitCh d) = true := by decide

lemma foldl_digits (ds : List Nat) (h : ∀ d ∈ ds, d < 10) (a : Nat) :
    List.foldl (fun x c => 10 * x + (c.toNat - 48)) a ((ds.map digitCh).reverse) =
      a * 10 ^ ds.length + Nat.ofDigits 10 ds := by
  induction ds generalizing a with
  | nil => simp
  | cons d ds ih =>
    have hd : d < 10 := h d (List.mem_cons_self d ds)
    have hds : ∀ x ∈ ds, x < 10 := fun x hx => h x (List.mem_cons_of_mem d hx)
    rw [List.map_cons, List.reverse_cons, List.foldl_append, ih hds]
    simp only [List.foldl_cons, List.foldl_nil, digitCh_toNat d hd,
      Nat.ofDigits_cons, List.length_cons, Nat.cast_id]
    have h48 : 48 + d - 48 = d := by omega
    rw [h48]
    ring

lemma decVal_toDecChars (n : Nat) : decVal (toDecChars n) = n := by
  by_cases hn : n = 0
  · subst hn; decide
  · have hlt : ∀ d ∈ Nat.digits 10 n, d < 10 :=
      fun d hd => Nat.digits_lt_base (by norm_num) hd
    simp only [toDecChars, if_neg hn, decVal]
    rw [foldl_digits _ hlt 0]
    simp [Nat.ofDigits_digits]

lemma toDecChars_ne_nil (n : Nat) : toDecChars n ≠ [] := by
  by_cases hn : n = 0
  · subst hn; decide
  · simp only [toDecChars, if_neg hn]
    simp [Nat.digits_ne_nil_iff_ne_zero.mpr hn]

lemma toDecChars_digit {n : Nat} {c : Char} (hc : c ∈ toDecChars n) :
    isDigitCh c = true := by
  by_cases hn : n = 0
  · subst hn
    simp only [show toDecChars 0 = [Char.ofNat 48] from rfl,
      List.mem_singleton] at hc
    subst hc; decide
  · simp only [toDecChars, if_neg hn, List.mem_reverse, List.mem_map] at hc
    obtain ⟨d, hd, rfl⟩ := hc
    exact isDigitCh_digitCh d (Nat.digits_lt_base (by norm_num) hd)

lemma parseDecChars_toDecChars (n : Nat) : parseDecChars (toDecChars n) = some n := by
  have hall : (toDecChars n).all isDigitCh = true :=
    List.all_eq_true.mpr fun c hc => toDecChars_digit hc
  simp [parseDecChars, toDecChars_ne_nil n, hall, decVal_toDecChars]

lemma foldl_zeros (k : Nat) :
    List.foldl (fun x c => 10 * x + (c.toNat - 48)) 0
        (List.replicate k (Char.ofNat 48)) = 0 := by
  induction k with
  | zero => rfl
  | succ k ih => simpa [List.replicate_succ] using ih

lemma decVal_pad (k : Nat) (l : List Char) :
    decVal (List.replicate k (Char.ofNat 48) ++ l) = decVal l := by
  rw [decVal, List.foldl_append, foldl_zeros]
  rfl

lemma parseDecChars_pad4 (m : Nat) : parseDecChars (pad4 m) = some m := by
  have hne : pad4 m ≠ [] := by
    simp [pad4, toDecChars_ne_nil m]
  have hall : (pad4 m).all isDigitCh = true := by
    refine List.all_eq_true.mpr fun c hc => ?_
    rcases List.mem_append.mp hc with h | h
    · have := List.eq_of_mem_replicate h
      subst this; decide
    · exact toDecChars_digit h
  rw [parseDecChars, if_pos ⟨hne, hall⟩, pad4, decVal_pad, decVal_toDecChars]

lemma toDecChars_length_le (m : Nat) (hm : m < 10000) :
    (toDecChars m).length ≤ 4 := by
  by_cases h0 : m = 0
  · subst h0; decide
  · simp only [toDecChars, if_neg h0, List.length_reverse, List.length_map]
    rw [Nat.digits_len 10 m (by norm_num) h0]
    have : Nat.log 10 m < 4 := (Nat.lt_pow_iff_log_lt (by norm_num) h0).mp (by norm_num [hm])
    omega

lemma pad4_length (m : Nat) (hm : m < 10000) : (pad4 m).length = 4 := by
  have := toDecChars_length_le m hm
  simp only [pad4, List.length_append, List.length_replicate]
  omega

/-! ### Splitting and joining lemmas -/

lemma splitSep1_sepFree {sep : Char} {f : List Char} (h : sep ∉ f) :
    splitSep1 sep f = (f, []) := by
  induction f with
  | nil => rfl
  | cons c cs ih =>
    have hc : c ≠ sep := fun hc => h (hc ▸ List.mem_cons_self c cs)
    have hcs : sep ∉ cs := fun hm => h (List.mem_cons_of_mem c hm)
    simp [splitSep1, ih hcs, hc]

lemma splitSep1_append {sep : Char} {f : List Char} (h : sep ∉ f) (l : List Char) :
    splitSep1 sep (f ++ l) =
      (f ++ (splitSep1 sep l).1, (splitSep1 sep l).2) := by
  induction f with
  | nil => simp
  | cons c cs ih =>
    have hc : c ≠ sep := fun hc => h (hc ▸ List.mem_cons_self c cs)
    have hcs : sep ∉ cs := fun hm => h (List.mem_cons_of_mem c hm)
    simp [splitSep1, ih hcs, hc]

lemma splitSep1_cons_sep (sep : Char) (l : List Char) :
    splitSep1 sep (sep :: l) = ([], (splitSep1 sep l).1 :: (splitSep1 sep l).2) := by
  simp [splitSep1]

lemma splitSep_sepFree {sep : Char} {f : List Char} (h : sep ∉ f) :
    splitSep sep f = [f] := by
  simp [splitSep, splitSep1_sepFree h]

lemma splitSep_joinSep {sep : Char} :
    ∀ fields : List (List Char), fields ≠ [] →
      (∀ f ∈ fields, sep ∉ f) →
      splitSep sep (joinSep sep fields) = fields
  | [], hne, _ => absurd rfl hne
  | [f], _, h => by
    simpa [joinSep] using splitSep_sepFree (h f (List.mem_singleton.mpr rfl))
  | f :: g :: gs, _, h => by
    have hf : sep ∉ f := h f (List.mem_cons_self f (g :: gs))
    have hrest : ∀ x ∈ g :: gs, sep ∉ x :=
      fun x hx => h x (List.mem_cons_of_mem f hx)
    have ih := splitSep_joinSep (g :: gs) (by simp) hrest
    simp only [joinSep, splitSep, splitSep1_append hf, splitSep1_cons_sep]
    simp only [splitSep] at ih
    rw [List.cons.injEq] at ih
    simp [ih.1, ih.2]

lemma mem_joinSep {sep : Char} {c : Char} :
    ∀ {fields : List (List Char)}, c ∈ joinSep sep fields →
      c = sep ∨ ∃ f ∈ fields, c ∈ f
  | [], h => by simp [joinSep] at h
  | [f], h => by
    right; exact ⟨f, List.mem_singleton.mpr rfl, by simpa [joinSep] using h⟩
  | f :: g :: gs, h => by
    simp only [joinSep, List.mem_append, List.mem_cons] at h
    rcases h with h | h | h
    · exact Or.inr ⟨f, List.mem_cons_self f (g :: gs), h⟩
    · exact Or.inl h
    · rcases mem_joinSep h with h | ⟨x, hx, hcx⟩
      · exact Or.inl h
      · exact Or.inr ⟨x, List.mem_cons_of_mem f hx, hcx⟩

/-! ### Fixed-point decimal round trip -/

lemma isDigitCh_ne_sep {c : Char} (h : isDigitCh c = true) :
    c ≠ Char.ofNat 44 ∧ c ≠ Char.ofNat 10 ∧ c ≠ Char.ofNat 46 ∧ c ≠ Char.ofNat 47 := by
  refine ⟨fun hc => ?_, fun hc => ?_, fun hc => ?_, fun hc => ?_⟩ <;>
    (subst hc; revert h; decide)

lemma renderDec4_natScaled (n : Nat) :
    renderDec4 ((n : ℚ) / 10000) =
      toDecChars (n / 10000) ++ Char.ofNat 46 :: pad4 (n % 10000) := by
  have h : ((n : ℚ) / 10000) * 10000 = (n : ℚ) := by
    field_simp
  rw [renderDec4, h]
  norm_num

lemma dot_not_mem_toDecChars (m : Nat) : Char.ofNat 46 ∉ toDecChars m :=
  fun hm => ((isDigitCh_ne_sep (toDecChars_digit hm)).2.2.1 rfl)

lemma dot_not_mem_pad4 (m : Nat) : Char.ofNat 46 ∉ pad4 m := by
  intro hm
  rcases List.mem_append.mp hm with h | h
  · have := List.eq_of_mem_replicate h
    exact absurd this (by decide)
  · exact dot_not_mem_toDecChars m h

lemma parseDec4_renderDec4 (n : Nat) :
    parseDec4 (renderDec4 ((n : ℚ) / 10000)) = some ((n : ℚ) / 10000) := by
  rw [renderDec4_natScaled]
  have hsplit :
      splitSep (Char.ofNat 46)
        (toDecChars (n / 10000) ++ Char.ofNat 46 :: pad4 (n % 10000)) =
      [toDecChars (n / 10000), pad4 (n % 10000)] := by
    simp only [splitSep, splitSep1_append (dot_not_mem_toDecChars (n / 10000)),
      splitSep1_cons_sep, splitSep1_sepFree (dot_not_mem_pad4 (n % 10000))]
    simp
  rw [parseDec4]
  rw [hsplit]
  simp only [pad4_length (n % 10000) (Nat.mod_lt n (by norm_num)), if_pos rfl,
    parseDecChars_toDecChars, parseDecChars_pad4]
  have hnm : n / 10000 * 10000 + n % 10000 = n := by
    have := Nat.div_add_mod n 10000
    omega
  rw [hnm]
  simp

/-! ### Rounding lemmas -/

lemma roundHalfEven_nonneg {q : ℚ} (h : 0 ≤ q) : 0 ≤ roundHalfEven q := by
  have hf : (0 : ℤ) ≤ Int.floor q := Int.floor_nonneg.mpr h
  rw [roundHalfEven]
  split_ifs <;> omega

lemma pyRound4_natScaled {q : ℚ} (h : 0 ≤ q) :
    pyRound4 q = (((roundHalfEven (q * 10000)).toNat : Nat) : ℚ) / 10000 := by
  have hr : 0 ≤ roundHalfEven (q * 10000) :=
    roundHalfEven_nonneg (by positivity)
  rw [pyRound4]
  congr 1
  rw [← Int.toNat_of_nonneg hr]
  push_cast
  rw [Int.toNat_of_nonneg hr]

/-! ### File-system lemmas -/

lemma stringMk_data (s : String) : String.mk s.data = s := rfl

lemma mem_ancestorsFuel_self (k : Nat) (p : String) : p ∈ ancestorsFuel k p := by
  cases k with
  | zero => simp [ancestorsFuel]
  | succ k =>
    simp only [ancestorsFuel]
    split <;> simp

lemma mem_ancestorChain_self (p : String) : p ∈ ancestorChain p :=
  mem_ancestorsFuel_self _ p

lemma mem_makedirs_of_mem_chain {fs : FileSystem} {p q : String}
    (hq : q ∈ ancestorChain p) : q ∈ (makedirs fs p).dirs := by
  simp only [makedirs, List.mem_append, List.mem_filter]
  by_cases h : q ∈ fs.dirs
  · exact Or.inl h
  · exact Or.inr ⟨hq, by simpa using h⟩

lemma mem_makedirs_self (fs : FileSystem) (p : String) :
    p ∈ (makedirs fs p).dirs :=
  mem_makedirs_of_mem_chain (mem_ancestorChain_self p)

lemma makedirs_dirs_of_subset {fs : FileSystem} {p : String}
    (h : ∀ q ∈ ancestorChain p, q ∈ fs.dirs) :
    (makedirs fs p).dirs = fs.dirs := by
  have hfilter : (ancestorChain p).filter (fun d => decide (d ∉ fs.dirs)) = [] := by
    rw [List.filter_eq_nil_iff]
    intro a ha
    simpa using h a ha
  simp only [makedirs]
  rw [hfilter, List.append_nil]

lemma makedirs_files (fs : FileSystem) (p : String) :
    (makedirs fs p).files = fs.files := rfl

lemma save_after_makedirs (fs : FileSystem) (d : ResultData) (f : String) :
    save_result (makedirs fs (dirname f)) d f =
      Except.ok ⟨(makedirs fs (dirname f)).dirs,
                 fs.files ++ [(f, renderCsv d)]⟩ := by
  rw [save_result, if_pos (Or.inl (mem_makedirs_self fs (dirname f)))]
  rfl

/-! ### Characterisation of `run` -/

lemma run_eq (cfg : Config) (env : Env) (fs : FileSystem) (L : Nat) :
    run cfg env fs L =
      (if (env.tokShape (List.replicate BATCH_SIZE (pyStrMul DUMMY_INPUT L))).2 ≠ L then
        Except.error "AssertionError: input shape 1"
      else if (env.tokShape (List.replicate BATCH_SIZE (pyStrMul DUMMY_INPUT L))).1 ≠ BATCH_SIZE then
        Except.error "AssertionError: input shape 0"
      else if env.genSeqLen ≠ GENERATE_LENGTH_PER_EXPERIMENT + L then
        Except.error "AssertionError: pred shape 1"
      else
        Except.ok (⟨(makedirs fs (dirname (mkOutFile cfg env L))).dirs,
                    fs.files ++ [(mkOutFile cfg env L, renderCsv (mkResultData cfg env L))]⟩,
                   mkResultData cfg env L, mkOutFile cfg env L)) := by
  rw [run]
  split_ifs with h1 h2 h3 <;> try rfl
  simp only [save_after_makedirs]

lemma run_ok_inv {cfg : Config} {env : Env} {fs : FileSystem} {L : Nat}
    {fs' : FileSystem} {d : ResultData} {out : String}
    (hok : run cfg env fs L = Except.ok (fs', d, out)) :
    d = mkResultData cfg env L ∧ out = mkOutFile cfg env L ∧
      fs' = ⟨(makedirs fs (dirname (mkOutFile cfg env L))).dirs,
             fs.files ++ [(mkOutFile cfg env L, renderCsv (mkResultData cfg env L))]⟩ ∧
      env.tokShape (List.replicate BATCH_SIZE (pyStrMul DUMMY_INPUT L)) = (BATCH_SIZE, L) ∧
      env.genSeqLen = GENERATE_LENGTH_PER_EXPERIMENT + L := by
  rw [run_eq] at hok
  split_ifs at hok with h1 h2 h3
  simp only [Except.ok.injEq, Prod.mk.injEq] at hok
  obtain ⟨hfs, hd, hout⟩ := hok
  refine ⟨hd.symm, hout.symm, hfs.symm, ?_, ?_⟩
  · push_neg at h1 h2
    exact Prod.ext h2 h1
  · push_neg at h3
    exact h3

/-! ### Concrete fixtures for witnesses -/

/-- A concrete configuration, as in the usage line of the script. -/
def cfg0 : Config :=
  { model_id := "Qwen/Qwen2.5-0.5B-Instruct", outputs_dir := "outputs/transformer" }

/-- A concrete well-behaved environment for context length 2: the tokenizer
maps each dummy character to one token, generation reaches `min_length`. -/
def env0 : Env :=
  { tokShape := fun l => (l.length, (l.headD "").length),
    genSeqLen := 2050,
    timeCost := 2,
    memAllocated := [1073741824],
    timestamp := "0101000000" }

/-- An initially empty file system. -/
def fs0 : FileSystem := { dirs := [], files := [] }

/-- The file system state after the concrete run of `cfg0`/`env0`. -/
def fsW : FileSystem :=
  ⟨(makedirs fs0 (dirname (mkOutFile cfg0 env0 2))).dirs,
   fs0.files ++ [(mkOutFile cfg0 env0 2, renderCsv (mkResultData cfg0 env0 2))]⟩

/-- Projection of the tokens-per-second field out of a run result. -/
def tpsOf (r : Except String (FileSystem × ResultData × String)) : ℚ :=
  match r with
  | Except.ok x => x.2.1.tokens_per_second
  | Except.error _ => 0

/-- An environment whose wall-clock time (3 seconds) makes the quotient
2048/3 have more than four decimal places. -/
def envC : Env :=
  { tokShape := fun l => (l.length, (l.headD "").length),
    genSeqLen := 2049,
    timeCost := 3,
    memAllocated := [0],
    timestamp := "0101000000" }

/-- No optional module is installed. -/
def noModules : String → Bool := fun _ => false

/-! ### Claim theorems -/

lemma floor_20480000_3 : Int.floor ((20480000 : ℚ) / 3) = 6826666 := by
  rw [Int.floor_eq_iff]
  constructor <;> norm_num

lemma pyRound4_2048_3 : pyRound4 ((2048 : ℚ) / 3) = (6826667 : ℚ) / 10000 := by
  have hq : ((2048 : ℚ) / 3) * 10000 = (20480000 : ℚ) / 3 := by norm_num
  have hround : roundHalfEven ((20480000 : ℚ) / 3) = 6826667 := by
    simp only [roundHalfEven, floor_20480000_3]
    rw [if_neg (by norm_num), if_pos (by norm_num)]
    norm_num
  rw [pyRound4, hq, hround]
  norm_num

/-- C1 (counterexample): at context length 1 with wall-clock generation time
3 seconds, the run succeeds but the `tokens_per_second` value stored in the
result record is the rounded 682.6667, which differs from the exact quotient
2048/3 — the record value is not the generated-token count divided by the
wall-clock time. -/
theorem c1_counterexample :
    run cfg0 envC fs0 1 =
      Except.ok (⟨(makedirs fs0 (dirname (mkOutFile cfg0 envC 1))).dirs,
                  fs0.files ++ [(mkOutFile cfg0 envC 1, renderCsv (mkResultData cfg0 envC 1))]⟩,
                 mkResultData cfg0 envC 1, mkOutFile cfg0 envC 1) ∧
    (mkResultData cfg0 envC 1).tokens_per_second = (6826667 : ℚ) / 10000 ∧
    (mkResultData cfg0 envC 1).tokens_per_second ≠
      (GENERATE_LENGTH_PER_EXPERIMENT : ℚ) / envC.timeCost := by
  have hq : (GENERATE_LENGTH_PER_EXPERIMENT : ℚ) / envC.timeCost = (2048 : ℚ) / 3 := by
    norm_num [envC, GENERATE_LENGTH_PER_EXPERIMENT]
  have htps : (mkResultData cfg0 envC 1).tokens_per_second = (6826667 : ℚ) / 10000 := by
    show pyRound4 ((GENERATE_LENGTH_PER_EXPERIMENT : ℚ) / envC.timeCost) = _
    rw [hq, pyRound4_2048_3]
  refine ⟨?_, htps, ?_⟩
  · rw [run_eq]
    rfl
  · rw [htps, hq]
    norm_num

/-- C1 (amended): for every successful run, the `tokens_per_second` value in
the result record equals the generated-token count (the fixed generate length
2048) divided by the wall-clock generation time, rounded to 4 decimal places;
and under the output-shape assertion the numerator 2048 equals the number of
tokens actually generated, output length `L + 2048` minus input length `L`. -/
theorem c1_tokens_per_second_rounded (cfg : Config) (env : Env)
    (fs : FileSystem) (L : Nat) (fs' : FileSystem) (d : ResultData) (out : String)
    (hok : run cfg env fs L = Except.ok (fs', d, out)) :
    d.tokens_per_second =
      pyRound4 ((GENERATE_LENGTH_PER_EXPERIMENT : ℚ) / env.timeCost) ∧
    env.genSeqLen - (env.tokShape (List.replicate BATCH_SIZE (pyStrMul DUMMY_INPUT L))).2 =
      GENERATE_LENGTH_PER_EXPERIMENT := by
  obtain ⟨hd, -, -, hshape, hgen⟩ := run_ok_inv hok
  constructor
  · rw [hd]
    rfl
  · rw [hshape, hgen]
    simp

/-- Witness for C1's amended theorem at a concrete successful run. -/
theorem c1_witness :
    run cfg0 env0 fs0 2 =
      Except.ok (fsW, mkResultData cfg0 env0 2, mkOutFile cfg0 env0 2) ∧
    ((mkResultData cfg0 env0 2).tokens_per_second =
        pyRound4 ((GENERATE_LENGTH_PER_EXPERIMENT : ℚ) / env0.timeCost) ∧
     env0.genSeqLen -
        (env0.tokShape (List.replicate BATCH_SIZE (pyStrMul DUMMY_INPUT 2))).2 =
       GENERATE_LENGTH_PER_EXPERIMENT) :=
  have hrun : run cfg0 env0 fs0 2 =
      Except.ok (fsW, mkResultData cfg0 env0 2, mkOutFile cfg0 env0 2) := by
    rw [run_eq]
    rfl
  ⟨hrun, c1_tokens_per_second_rounded cfg0 env0 fs0 2 fsW
    (mkResultData cfg0 env0 2) (mkOutFile cfg0 env0 2) hrun⟩

/-- C2: whenever the tokenizer yields exactly `L` input tokens for the
batch row of the synthetic prompt (the dummy character repeated `L` times)
and the generated output sequence length is `L + 2048`, both `assert`
branches are unreachable and `run` succeeds. -/
theorem c2_shape_assertions (cfg : Config) (env : Env) (fs : FileSystem) (L : Nat)
    (h1 : env.tokShape (List.replicate BATCH_SIZE (pyStrMul DUMMY_INPUT L)) = (BATCH_SIZE, L))
    (h2 : env.genSeqLen = GENERATE_LENGTH_PER_EXPERIMENT + L) :
    run cfg env fs L =
      Except.ok (⟨(makedirs fs (dirname (mkOutFile cfg env L))).dirs,
                  fs.files ++ [(mkOutFile cfg env L, renderCsv (mkResultData cfg env L))]⟩,
                 mkResultData cfg env L, mkOutFile cfg env L) := by
  rw [run_eq, h1, h2]
  simp

/-- Witness for C2 at a concrete environment satisfying both hypotheses. -/
theorem c2_witness :
    (env0.tokShape (List.replicate BATCH_SIZE (pyStrMul DUMMY_INPUT 2)) = (BATCH_SIZE, 2) ∧
     env0.genSeqLen = GENERATE_LENGTH_PER_EXPERIMENT + 2) ∧
    run cfg0 env0 fs0 2 =
      Except.ok (⟨(makedirs fs0 (dirname (mkOutFile cfg0 env0 2))).dirs,
                  fs0.files ++ [(mkOutFile cfg0 env0 2, renderCsv (mkResultData cfg0 env0 2))]⟩,
                 mkResultData cfg0 env0 2, mkOutFile cfg0 env0 2) :=
  ⟨⟨by decide, by decide⟩, c2_shape_assertions cfg0 env0 fs0 2 (by decide) (by decide)⟩

/-- C3: every successful run appends exactly one row record to the output
file, and the record consists of exactly the eight fields, in order:
model identifier, batch size, context length, generate length,
flash-attention flag, comment, tokens-per-second and peak GPU memory. -/
theorem c3_record_fields (cfg : Config) (env : Env) (fs : FileSystem) (L : Nat)
    (fs' : FileSystem) (d : ResultData) (out : String)
    (hok : run cfg env fs L = Except.ok (fs', d, out)) :
    fs'.files = fs.files ++ [(out, renderCsv d)] ∧
    (recordFields d).map Prod.fst =
      ["model_id", "batch_size", "context_length_per_experiment",
       "generate_length_per_experiment", "use_flash_attn", "comment",
       "tokens_per_second", "max_gpu_memory_cost_gb"] ∧
    (recordFields d).length = 8 := by
  obtain ⟨hd, hout, hfs, -, -⟩ := run_ok_inv hok
  refine ⟨?_, rfl, rfl⟩
  rw [hfs, hd, hout]

/-- Witness for C3 at a concrete successful run. -/
theorem c3_witness :
    run cfg0 env0 fs0 2 =
      Except.ok (fsW, mkResultData cfg0 env0 2, mkOutFile cfg0 env0 2) ∧
    fsW.files = fs0.files ++ [(mkOutFile cfg0 env0 2, renderCsv (mkResultData cfg0 env0 2))] :=
  have hrun : run cfg0 env0 fs0 2 =
      Except.ok (fsW, mkResultData cfg0 env0 2, mkOutFile cfg0 env0 2) := by
    rw [run_eq]
    rfl
  ⟨hrun, (c3_record_fields cfg0 env0 fs0 2 fsW
    (mkResultData cfg0 env0 2) (mkOutFile cfg0 env0 2) hrun).1⟩

/-- C4: constructing the benchmark with `use_modelscope` true and the
`modelscope` module absent raises `ImportError`, and likewise with
`use_modelscope` false and `huggingface_hub` absent; the error propagates
out of `initDeps` with no state produced. -/
theorem c4_init_import_error (use_modelscope : Bool) (installed : String → Bool) :
    (use_modelscope = true → installed "modelscope" = false →
      initDeps use_modelscope installed =
        Except.error "ImportError: Please install modelscope") ∧
    (use_modelscope = false → installed "huggingface_hub" = false →
      initDeps use_modelscope installed =
        Except.error "ImportError: Please install huggingface-hub") := by
  constructor
  · rintro rfl h
    simp [initDeps, h]
  · rintro rfl h
    simp [initDeps, h]

/-- Witness for C4 with no optional module installed. -/
theorem c4_witness :
    initDeps true noModules = Except.error "ImportError: Please install modelscope" ∧
    initDeps false noModules = Except.error "ImportError: Please install huggingface-hub" :=
  ⟨(c4_init_import_error true noModules).1 rfl rfl,
   (c4_init_import_error false noModules).2 rfl rfl⟩

/-- C7: the command-line surface consists of exactly five parameters, with
`--outputs_dir` defaulting to `outputs/transformer`, and `main` reads
exactly those five parsed attributes. -/
theorem c7_cli_surface :
    cliArgs.map ArgDef.flag =
      ["--model_id", "--context_length", "--gpus", "--use_modelscope", "--outputs_dir"] ∧
    cliArgs.length = 5 ∧
    cliArgs.map ArgDef.defaultVal =
      [none, none, none, none, some "outputs/transformer"] ∧
    mainConsumed = ["model_id", "gpus", "context_length", "use_modelscope", "outputs_dir"] := by
  refine ⟨rfl, rfl, rfl, rfl⟩

/-- C8: the peak-memory field of every successful run's record is the sum of
the per-device peak allocation counters, divided by 1024 three times and
rounded to 4 decimal places; the `max` with the initial 0 is the identity
because the sum is non-negative. -/
theorem c8_peak_memory (cfg : Config) (env : Env) (fs : FileSystem) (L : Nat)
    (fs' : FileSystem) (d : ResultData) (out : String)
    (hok : run cfg env fs L = Except.ok (fs', d, out)) :
    d.max_gpu_memory_cost_gb =
      pyRound4 ((env.memAllocated.sum : ℚ) / 1024 / 1024 / 1024) ∧
    max 0 env.memAllocated.sum = env.memAllocated.sum := by
  obtain ⟨hd, -, -, -, -⟩ := run_ok_inv hok
  have hsum : env.memAllocated.foldl (fun a b => a + b) 0 = env.memAllocated.sum := by
    rw [List.sum_eq_foldl]
  constructor
  · rw [hd]
    show pyRound4
        ((max 0 (env.memAllocated.foldl (fun a b => a + b) 0) : Nat) / 1024 / 1024 / 1024 : ℚ) = _
    rw [max_eq_right (Nat.zero_le _), hsum]
  · exact max_eq_right (Nat.zero_le _)

/-- Witness for C8 at a concrete successful run (one device, 1 GiB). -/
theorem c8_witness :
    run cfg0 env0 fs0 2 =
      Except.ok (fsW, mkResultData cfg0 env0 2, mkOutFile cfg0 env0 2) ∧
    (mkResultData cfg0 env0 2).max_gpu_memory_cost_gb =
      pyRound4 ((env0.memAllocated.sum : ℚ) / 1024 / 1024 / 1024) :=
  have hrun : run cfg0 env0 fs0 2 =
      Except.ok (fsW, mkResultData cfg0 env0 2, mkOutFile cfg0 env0 2) := by
    rw [run_eq]
    rfl
  ⟨hrun, (c8_peak_memory cfg0 env0 fs0 2 fsW
    (mkResultData cfg0 env0 2) (mkOutFile cfg0 env0 2) hrun).1⟩

/-- C9: the batch size is invariantly 1: the class constant is 1, the
synthetic input is a single-row batch, and the `batch_size` field of every
successful run's record is 1. -/
theorem c9_batch_size_invariant (cfg : Config) (env : Env) (fs : FileSystem) (L : Nat)
    (fs' : FileSystem) (d : ResultData) (out : String)
    (hok : run cfg env fs L = Except.ok (fs', d, out)) :
    BATCH_SIZE = 1 ∧ d.batch_size = 1 ∧
    (env.tokShape (List.replicate BATCH_SIZE (pyStrMul DUMMY_INPUT L))).1 = 1 ∧
    (List.replicate BATCH_SIZE (pyStrMul DUMMY_INPUT L)).length = 1 := by
  obtain ⟨hd, -, -, hshape, -⟩ := run_ok_inv hok
  refine ⟨rfl, ?_, ?_, by simp [BATCH_SIZE]⟩
  · rw [hd]
    rfl
  · rw [hshape]
    rfl

/-- Witness for C9 at a concrete successful run. -/
theorem c9_witness :
    run cfg0 env0 fs0 2 =
      Except.ok (fsW, mkResultData cfg0 env0 2, mkOutFile cfg0 env0 2) ∧
    (mkResultData cfg0 env0 2).batch_size = 1 :=
  have hrun : run cfg0 env0 fs0 2 =
      Except.ok (fsW, mkResultData cfg0 env0 2, mkOutFile cfg0 env0 2) := by
    rw [run_eq]
    rfl
  ⟨hrun, (c9_batch_size_invariant cfg0 env0 fs0 2 fsW
    (mkResultData cfg0 env0 2) (mkOutFile cfg0 env0 2) hrun).2.1⟩

/-- C10: under the environment hypotheses that make the assertions pass,
`run` succeeds against every starting file system — `os.makedirs` with
`exist_ok=True` runs before the write, so saving never fails because the
output directory is missing; the written directory chain is present
afterwards, and a directory chain that already exists is left unchanged. -/
theorem c10_makedirs_before_write (cfg : Config) (env : Env) (L : Nat)
    (h1 : env.tokShape (List.replicate BATCH_SIZE (pyStrMul DUMMY_INPUT L)) = (BATCH_SIZE, L))
    (h2 : env.genSeqLen = GENERATE_LENGTH_PER_EXPERIMENT + L) :
    (∀ fs : FileSystem, (run cfg env fs L).isOk = true) ∧
    (∀ (fs fs' : FileSystem) (d : ResultData) (out : String),
      run cfg env fs L = Except.ok (fs', d, out) →
        (∀ p ∈ ancestorChain (dirname out), p ∈ fs'.dirs) ∧
        ((∀ p ∈ ancestorChain (dirname out), p ∈ fs.dirs) → fs'.dirs = fs.dirs)) := by
  constructor
  · intro fs
    rw [run_eq, h1, h2]
    simp [Except.isOk, Except.toBool]
  · intro fs fs' d out hok
    obtain ⟨-, hout, hfs, -, -⟩ := run_ok_inv hok
    subst hout
    constructor
    · intro p hp
      rw [hfs]
      exact mem_makedirs_of_mem_chain hp
    · intro hall
      rw [hfs]
      exact makedirs_dirs_of_subset hall

/-- Witness for C10 at a concrete environment and the empty file system. -/
theorem c10_witness :
    (env0.tokShape (List.replicate BATCH_SIZE (pyStrMul DUMMY_INPUT 2)) = (BATCH_SIZE, 2) ∧
     env0.genSeqLen = GENERATE_LENGTH_PER_EXPERIMENT + 2) ∧
    (run cfg0 env0 fs0 2).isOk = true :=
  ⟨⟨by decide, by decide⟩,
   (c10_makedirs_before_write cfg0 env0 2 (by decide) (by decide)).1 fs0⟩

/-! ### Output-file-name lemmas for C6 -/

lemma slash_not_mem_replaceSlash (s : String) :
    Char.ofNat 47 ∉ (replaceSlash s).data := by
  intro h
  rw [show (replaceSlash s).data =
      s.data.flatMap (fun c => if c = Char.ofNat 47 then
        [Char.ofNat 95, Char.ofNat 95] else [c]) from rfl,
    List.mem_flatMap] at h
  obtain ⟨c, -, hc⟩ := h
  by_cases h47 : c = Char.ofNat 47
  · rw [if_pos h47] at hc
    revert hc
    decide
  · rw [if_neg h47] at hc
    simp only [List.mem_singleton] at hc
    exact h47 hc.symm

lemma mkOutFile_data_decomp (cfg : Config) (env : Env) (L : Nat)
    (hts : Char.ofNat 47 ∉ env.timestamp.data) :
    ∃ mid : List Char, (mid = [] ∨ mid = [Char.ofNat 47]) ∧
      (mkOutFile cfg env L).data =
        cfg.outputs_dir.data ++ mid ++
          ((replaceSlash cfg.model_id).data ++ "_context_length-".data ++
            toDecChars L ++ "_".data ++ env.timestamp.data ++ ".csv".data) := by
  have hnm : (replaceSlash cfg.model_id ++ "_context_length-" ++
      String.mk (toDecChars L) ++ "_" ++ env.timestamp ++ ".csv").data =
      (replaceSlash cfg.model_id).data ++ "_context_length-".data ++
        toDecChars L ++ "_".data ++ env.timestamp.data ++ ".csv".data := by
    simp [String.data_append]
  rw [mkOutFile, pathJoin]
  split_ifs with hb ha
  · exfalso
    have hmem : Char.ofNat 47 ∈ (replaceSlash cfg.model_id ++ "_context_length-" ++
        String.mk (toDecChars L) ++ "_" ++ env.timestamp ++ ".csv").data :=
      List.mem_of_mem_head? (Option.mem_def.mpr hb)
    rw [hnm] at hmem
    simp only [List.mem_append] at hmem
    rcases hmem with ((((h | h) | h) | h) | h) | h
    · exact slash_not_mem_replaceSlash cfg.model_id h
    · revert h; decide
    · exact (isDigitCh_ne_sep (toDecChars_digit h)).2.2.2 rfl
    · revert h; decide
    · exact hts h
    · revert h; decide
  · refine ⟨[], Or.inl rfl, ?_⟩
    rw [String.data_append, hnm]
    simp
  · refine ⟨[Char.ofNat 47], Or.inr rfl, ?_⟩
    rw [String.data_append, String.data_append, hnm]

/-- C6: every successful run appends exactly one file; its path extends the
configured outputs directory, and its name contains the model identifier with
`/` replaced by `__`, the decimal context length, and the timestamp; `run`
returns that path. -/
theorem c6_output_file_name (cfg : Config) (env : Env) (fs : FileSystem) (L : Nat)
    (fs' : FileSystem) (d : ResultData) (out : String)
    (hok : run cfg env fs L = Except.ok (fs', d, out))
    (hts : Char.ofNat 47 ∉ env.timestamp.data) :
    fs'.files = fs.files ++ [(out, renderCsv d)] ∧
    out = mkOutFile cfg env L ∧
    (∃ rest, out.data = cfg.outputs_dir.data ++ rest) ∧
    containsSub out (replaceSlash cfg.model_id) ∧
    containsSub out (String.mk (toDecChars L)) ∧
    containsSub out env.timestamp := by
  obtain ⟨hd, hout, hfs, -, -⟩ := run_ok_inv hok
  subst hout
  subst hd
  obtain ⟨mid, -, hdata⟩ := mkOutFile_data_decomp cfg env L hts
  refine ⟨by rw [hfs], rfl, ?_, ?_, ?_, ?_⟩
  · exact ⟨_, by rw [hdata, List.append_assoc]⟩
  · refine ⟨cfg.outputs_dir.data ++ mid,
      "_context_length-".data ++ toDecChars L ++ "_".data ++
        env.timestamp.data ++ ".csv".data, ?_⟩
    rw [hdata]
    simp [List.append_assoc]
  · refine ⟨cfg.outputs_dir.data ++ mid ++ (replaceSlash cfg.model_id).data ++
        "_context_length-".data,
      "_".data ++ env.timestamp.data ++ ".csv".data, ?_⟩
    rw [hdata]
    simp [List.append_assoc]
  · refine ⟨cfg.outputs_dir.data ++ mid ++ (replaceSlash cfg.model_id).data ++
        "_context_length-".data ++ toDecChars L ++ "_".data,
      ".csv".data, ?_⟩
    rw [hdata]
    simp [List.append_assoc]

/-- Witness for C6 at a concrete successful run with a digit timestamp. -/
theorem c6_witness :
    run cfg0 env0 fs0 2 =
      Except.ok (fsW, mkResultData cfg0 env0 2, mkOutFile cfg0 env0 2) ∧
    Char.ofNat 47 ∉ env0.timestamp.data ∧
    containsSub (mkOutFile cfg0 env0 2) env0.timestamp :=
  have hrun : run cfg0 env0 fs0 2 =
      Except.ok (fsW, mkResultData cfg0 env0 2, mkOutFile cfg0 env0 2) := by
    rw [run_eq]
    rfl
  have hts : Char.ofNat 47 ∉ env0.timestamp.data := by decide
  ⟨hrun, hts, (c6_output_file_name cfg0 env0 fs0 2 fsW
    (mkResultData cfg0 env0 2) (mkOutFile cfg0 env0 2) hrun hts).2.2.2.2.2⟩

/-! ### CSV round-trip lemmas for C5 -/

lemma pad4_digit {m : Nat} {c : Char} (hc : c ∈ pad4 m) : isDigitCh c = true := by
  rcases List.mem_append.mp hc with h | h
  · have := List.eq_of_mem_replicate h
    subst this; decide
  · exact toDecChars_digit h

lemma toDecChars_charOk (m : Nat) :
    ∀ c ∈ toDecChars m, c ≠ Char.ofNat 44 ∧ c ≠ Char.ofNat 10 :=
  fun _ hc => ⟨(isDigitCh_ne_sep (toDecChars_digit hc)).1,
    (isDigitCh_ne_sep (toDecChars_digit hc)).2.1⟩

lemma renderDec4_charOk (n : Nat) :
    ∀ c ∈ renderDec4 ((n : ℚ) / 10000), c ≠ Char.ofNat 44 ∧ c ≠ Char.ofNat 10 := by
  rw [renderDec4_natScaled]
  intro c hc
  rcases List.mem_append.mp hc with h | h
  · exact toDecChars_charOk _ c h
  · rcases List.mem_cons.mp h with rfl | h
    · exact ⟨by decide, by decide⟩
    · exact ⟨(isDigitCh_ne_sep (pad4_digit h)).1, (isDigitCh_ne_sep (pad4_digit h)).2.1⟩

lemma boolChars_charOk (b : Bool) :
    ∀ c ∈ (if b then "True".data else "False".data),
      c ≠ Char.ofNat 44 ∧ c ≠ Char.ofNat 10 := by
  cases b <;> decide

lemma header_newline_free :
    Char.ofNat 10 ∉ joinSep (Char.ofNat 44) csvHeaderFields := by decide

lemma parseBool_render (b : Bool) :
    parseBool (if b then "True".data else "False".data) = some b := by
  cases b <;> rfl

lemma parseCsv_of_split {content R : List Char}
    (hsplit : splitSep (Char.ofNat 10) content =
      [joinSep (Char.ofNat 44) csvHeaderFields, R, []]) :
    parseCsv content = parseRow (splitSep (Char.ofNat 44) R) := by
  unfold parseCsv
  rw [hsplit]
  simp

lemma parseCsv_renderCsv_mk (mid cmt : String) (bs cl gl : Nat) (fl : Bool)
    (n1 n2 : Nat)
    (hmid : ∀ c ∈ mid.data, c ≠ Char.ofNat 44 ∧ c ≠ Char.ofNat 10)
    (hcmt : ∀ c ∈ cmt.data, c ≠ Char.ofNat 44 ∧ c ≠ Char.ofNat 10) :
    parseCsv (renderCsv ⟨mid, bs, cl, gl, fl, cmt, (n1 : ℚ) / 10000, (n2 : ℚ) / 10000⟩) =
      some ⟨mid, bs, cl, gl, fl, cmt, (n1 : ℚ) / 10000, (n2 : ℚ) / 10000⟩ := by
  have hfields :
      (recordFields ⟨mid, bs, cl, gl, fl, cmt, (n1 : ℚ) / 10000, (n2 : ℚ) / 10000⟩).map
        (fun kv => renderValue kv.2) =
      [mid.data, toDecChars bs, toDecChars cl, toDecChars gl,
       (if fl then "True".data else "False".data), cmt.data,
       renderDec4 ((n1 : ℚ) / 10000), renderDec4 ((n2 : ℚ) / 10000)] := rfl
  have hok : ∀ f ∈ [mid.data, toDecChars bs, toDecChars cl, toDecChars gl,
      (if fl then "True".data else "False".data), cmt.data,
      renderDec4 ((n1 : ℚ) / 10000), renderDec4 ((n2 : ℚ) / 10000)],
      ∀ c ∈ f, c ≠ Char.ofNat 44 ∧ c ≠ Char.ofNat 10 := by
    intro f hf
    simp only [List.mem_cons, List.not_mem_nil, or_false] at hf
    rcases hf with rfl | rfl | rfl | rfl | rfl | rfl | rfl | rfl
    · exact hmid
    · exact toDecChars_charOk bs
    · exact toDecChars_charOk cl
    · exact toDecChars_charOk gl
    · exact boolChars_charOk fl
    · exact hcmt
    · exact renderDec4_charOk n1
    · exact renderDec4_charOk n2
  have hsplitR : splitSep (Char.ofNat 44)
      (joinSep (Char.ofNat 44)
        [mid.data, toDecChars bs, toDecChars cl, toDecChars gl,
         (if fl then "True".data else "False".data), cmt.data,
         renderDec4 ((n1 : ℚ) / 10000), renderDec4 ((n2 : ℚ) / 10000)]) =
      [mid.data, toDecChars bs, toDecChars cl, toDecChars gl,
       (if fl then "True".data else "False".data), cmt.data,
       renderDec4 ((n1 : ℚ) / 10000), renderDec4 ((n2 : ℚ) / 10000)] := by
    refine splitSep_joinSep _ (by simp) ?_
    intro f hf hc
    exact (hok f hf (Char.ofNat 44) hc).1 rfl
  have hR10 : Char.ofNat 10 ∉ joinSep (Char.ofNat 44)
      [mid.data, toDecChars bs, toDecChars cl, toDecChars gl,
       (if fl then "True".data else "False".data), cmt.data,
       renderDec4 ((n1 : ℚ) / 10000), renderDec4 ((n2 : ℚ) / 10000)] := by
    intro hc
    rcases mem_joinSep hc with h | ⟨f, hf, hcf⟩
    · exact absurd h (by decide)
    · exact (hok f hf (Char.ofNat 10) hcf).2 rfl
  have hsplitN : splitSep (Char.ofNat 10)
      (joinSep (Char.ofNat 10)
        [joinSep (Char.ofNat 44) csvHeaderFields,
         joinSep (Char.ofNat 44)
           [mid.data, toDecChars bs, toDecChars cl, toDecChars gl,
            (if fl then "True".data else "False".data), cmt.data,
            renderDec4 ((n1 : ℚ) / 10000), renderDec4 ((n2 : ℚ) / 10000)], []]) =
      [joinSep (Char.ofNat 44) csvHeaderFields,
       joinSep (Char.ofNat 44)
         [mid.data, toDecChars bs, toDecChars cl, toDecChars gl,
          (if fl then "True".data else "False".data), cmt.data,
          renderDec4 ((n1 : ℚ) / 10000), renderDec4 ((n2 : ℚ) / 10000)], []] := by
    refine splitSep_joinSep _ (by simp) ?_
    intro f hf
    simp only [List.mem_cons, List.not_mem_nil, or_false] at hf
    rcases hf with rfl | rfl | rfl
    · exact header_newline_free
    · exact hR10
    · exact List.not_mem_nil _
  rw [renderCsv, hfields, parseCsv_of_split hsplitN, hsplitR]
  unfold parseRow
  simp only []
  rw [parseDecChars_toDecChars, parseDecChars_toDecChars, parseDecChars_toDecChars,
    parseBool_render, parseDec4_renderDec4, parseDec4_renderDec4]

/-- C5: CSV round trip — for every result record produced by a successful
run (with a model identifier free of delimiter, newline and quote characters,
and a non-negative wall clock), parsing the delimited text written by
`save_result` recovers exactly the same record, field names and values; the
written file holds that text. -/
theorem c5_csv_roundtrip (cfg : Config) (env : Env) (fs : FileSystem) (L : Nat)
    (fs' : FileSystem) (d : ResultData) (out : String)
    (hok : run cfg env fs L = Except.ok (fs', d, out))
    (hm : ∀ c ∈ cfg.model_id.data,
      c ≠ Char.ofNat 44 ∧ c ≠ Char.ofNat 10 ∧ c ≠ Char.ofNat 34)
    (ht : (0 : ℚ) ≤ env.timeCost) :
    fs'.files = fs.files ++ [(out, renderCsv d)] ∧
    parseCsv (renderCsv d) = some d := by
  obtain ⟨hd, hout, hfs, -, -⟩ := run_ok_inv hok
  subst hd
  subst hout
  refine ⟨by rw [hfs], ?_⟩
  have h1 : (0 : ℚ) ≤ (GENERATE_LENGTH_PER_EXPERIMENT : ℚ) / env.timeCost :=
    div_nonneg (by positivity) ht
  have h2 : (0 : ℚ) ≤
      ((max 0 (env.memAllocated.foldl (fun a b => a + b) 0) : Nat) : ℚ) / 1024 / 1024 / 1024 := by
    positivity
  obtain ⟨n1, e1⟩ : ∃ n : Nat,
      (mkResultData cfg env L).tokens_per_second = (n : ℚ) / 10000 :=
    ⟨_, by
      show pyRound4 ((GENERATE_LENGTH_PER_EXPERIMENT : ℚ) / env.timeCost) = _
      exact pyRound4_natScaled h1⟩
  obtain ⟨n2, e2⟩ : ∃ n : Nat,
      (mkResultData cfg env L).max_gpu_memory_cost_gb = (n : ℚ) / 10000 :=
    ⟨_, by
      show pyRound4
        (((max 0 (env.memAllocated.foldl (fun a b => a + b) 0) : Nat) : ℚ) /
          1024 / 1024 / 1024) = _
      exact pyRound4_natScaled h2⟩
  have hrec : mkResultData cfg env L =
      ⟨cfg.model_id, BATCH_SIZE, L, GENERATE_LENGTH_PER_EXPERIMENT,
       USE_FLASH_ATTN, COMMENT, (n1 : ℚ) / 10000, (n2 : ℚ) / 10000⟩ := by
    rw [← e1, ← e2]
    rfl
  rw [hrec]
  exact parseCsv_renderCsv_mk cfg.model_id COMMENT BATCH_SIZE L
    GENERATE_LENGTH_PER_EXPERIMENT USE_FLASH_ATTN n1 n2
    (fun c hc => ⟨(hm c hc).1, (hm c hc).2.1⟩) (by decide)

/-- Witness for C5 at a concrete successful run. -/
theorem c5_witness :
    run cfg0 env0 fs0 2 =
      Except.ok (fsW, mkResultData cfg0 env0 2, mkOutFile cfg0 env0 2) ∧
    (0 : ℚ) ≤ env0.timeCost ∧
    parseCsv (renderCsv (mkResultData cfg0 env0 2)) =
      some (mkResultData cfg0 env0 2) :=
  have hrun : run cfg0 env0 fs0 2 =
      Except.ok (fsW, mkResultData cfg0 env0 2, mkOutFile cfg0 env0 2) := by
    rw [run_eq]
    rfl
  have hm : ∀ c ∈ cfg0.model_id.data,
      c ≠ Char.ofNat 44 ∧ c ≠ Char.ofNat 10 ∧ c ≠ Char.ofNat 34 := by decide
  have ht : (0 : ℚ) ≤ env0.timeCost := by norm_num [env0]
  ⟨hrun, ht, (c5_csv_roundtrip cfg0 env0 fs0 2 fsW
    (mkResultData cfg0 env0 2) (mkOutFile cfg0 env0 2) hrun hm ht).2⟩

end SpeedBenchmarkTransformer
